import Mathlib

/-!
Verification development for the Moon blog/content-management backend
(Go, Gin + GORM).  The post-lifecycle use case layer
(`internal/usecase/post_usecase.go`), the auth use case layer
(`internal/usecase/auth_usecase.go`) and the domain shapes
(`internal/domain/post/post.go`, `internal/domain/user/user.go`) are embedded
shallowly: Go structs become Lean structures, nullable pointer fields become
`Option`, Go `error` results become `Except String`, and the repository
interfaces (`post.Repository`, `user.Repository`) become structures of
state-passing functions over an abstract store state `σ`.  A concrete
in-memory store instantiates the repository interfaces the way the
GORM/MySQL repository layer behaves (soft-delete scoping included).

Modelling conventions:
* Go `uint` identifiers are `Nat`; Go `int`/`int64` values are `Int`
  (no arithmetic here comes near 64-bit overflow).
* `time.Time` values are unix seconds as `Int`; each use-case call receives
  the current instant as an explicit `now` argument (the several
  `time.Now()` calls inside one Go function body are modelled as the same
  instant).
* `strings.ToLower` is modelled on its ASCII fragment (`goToLower`); the
  slug pipeline replaces every rune outside `[a-z0-9]` by a hyphen run
  anyway, so all stated properties are insensitive to non-ASCII lowering.
* Go byte-length and byte-slicing of slugs coincide with character
  operations because every character surviving the regex replacement is
  ASCII.
-/

namespace Moon

/-! ## Slug generator (`generateSlug`, post_usecase.go lines 309-327) -/

/-- A character kept verbatim by the regex `[^a-z0-9]+` replacement. -/
def isSlugChar (c : Char) : Bool :=
  ('a' ≤ c && c ≤ 'z') || ('0' ≤ c && c ≤ '9')

/-- ASCII fragment of Go `strings.ToLower` (maps `'A'`-`'Z'` down, fixes the
rest; see the file header for why this fragment suffices). -/
def goToLower (c : Char) : Char :=
  if 'A' ≤ c && c ≤ 'Z' then Char.ofNat (c.toNat + 32) else c

/-- `regexp.MustCompile("[^a-z0-9]+").ReplaceAllString`: collapse every run
of non-`[a-z0-9]` characters to a single hyphen.  The flag records whether
the scanner is inside such a run. -/
def collapseRuns : Bool → List Char → List Char
  | _, [] => []
  | inRun, c :: cs =>
    if isSlugChar c then c :: collapseRuns false cs
    else if inRun then collapseRuns inRun cs
    else '-' :: collapseRuns true cs

/-- Go `strings.Trim(slug, "-")`: drop leading and trailing hyphens. -/
def trimHyphens (l : List Char) : List Char :=
  (((l.dropWhile (· == '-')).reverse.dropWhile (· == '-'))).reverse

/-- Slug pipeline on character lists: lower-case, collapse runs, trim,
then truncate to 100 (Go: `if len(slug) > 100 { slug = slug[:100] }`). -/
def generateSlugList (l : List Char) : List Char :=
  let collapsed := collapseRuns false (l.map goToLower)
  let trimmed := trimHyphens collapsed
  if trimmed.length > 100 then trimmed.take 100 else trimmed

/-- `generateSlug` from post_usecase.go. -/
def generateSlug (title : String) : String :=
  String.mk (generateSlugList title.data)

/-! ## Data model (`internal/domain/post/post.go`, `internal/domain/user/user.go`) -/

/-- The `Post` GORM model.  `deleted` models the `gorm.DeletedAt`
soft-delete marker. -/
structure Post where
  id : Nat
  title : String
  content : String
  summary : Option String
  slug : String
  status : String
  categoryId : Option Nat
  authorId : Nat
  featuredImg : Option String
  viewCount : Int
  isPublic : Bool
  publishedAt : Option Int
  createdAt : Int
  updatedAt : Int
  deleted : Bool
deriving DecidableEq

/-- The `User` GORM model.  The `lat`/`lng` float64 coordinates are carried
opaquely (no arithmetic is ever performed on them), modelled as `Int`. -/
structure User where
  id : Nat
  email : String
  password : String
  name : String
  phone : Option String
  address : Option String
  lat : Option Int
  lng : Option Int
  role : String
  isActive : Bool
  createdAt : Int
  updatedAt : Int
  deleted : Bool
deriving DecidableEq

/-- `post.CreatePostRequest`. -/
structure CreatePostRequest where
  title : String
  content : String
  summary : Option String
  categoryId : Option Nat
  featuredImg : Option String
  isPublic : Option Bool
  status : Option String
deriving DecidableEq

/-- `post.UpdatePostRequest`: every field is a nullable pointer. -/
structure UpdatePostRequest where
  title : Option String
  content : Option String
  summary : Option String
  categoryId : Option Nat
  featuredImg : Option String
  isPublic : Option Bool
  status : Option String
deriving DecidableEq

/-- `post.PostResponse`: outward shape with denormalized author name and
null-to-empty coercion of `summary`/`featuredImg`. -/
structure PostResponse where
  id : Nat
  title : String
  content : String
  summary : String
  slug : String
  status : String
  categoryId : Option Nat
  authorId : Nat
  authorName : String
  featuredImg : String
  viewCount : Int
  isPublic : Bool
  publishedAt : Option Int
  createdAt : Int
  updatedAt : Int
deriving DecidableEq

/-- `post.PostFilter`. -/
structure PostFilter where
  status : Option String
  categoryId : Option Nat
  authorId : Option Nat
  isPublic : Option Bool
  search : Option String
deriving DecidableEq

/-- `post.PostsListResponse`. -/
structure PostsListResponse where
  posts : List PostResponse
  total : Int
  page : Int
  limit : Int
  totalPages : Int
deriving DecidableEq

/-- `user.CreateUserRequest`. -/
structure CreateUserRequest where
  email : String
  password : String
  name : String
deriving DecidableEq

/-- `user.UserResponse`: every field is concrete (non-pointer); building it
from a `User` dereferences the user's pointer fields. -/
structure UserResponse where
  id : Nat
  email : String
  name : String
  phone : String
  address : String
  lat : Int
  lng : Int
  role : String
  isActive : Bool
  createdAt : Int
  updatedAt : Int
deriving DecidableEq

/-! ## Repository interfaces as state-passing function records

`post.Repository` / `user.Repository` are Go interfaces; the store behind
them (the database) is the state `σ`.  Each call returns its Go result and
the successor state.  GORM's `Create` fills the primary key and the managed
timestamps in place; that write-back is modelled by returning a
`CreateMeta` that the caller merges into its record. -/

/-- Store-assigned fields written back by `Create`. -/
structure CreateMeta where
  id : Nat
  createdAt : Int
  updatedAt : Int
deriving DecidableEq

/-- The slice of `post.Repository` exercised by the embedded use cases
(`GetByAuthor`, `GetByCategory` and `GetPublished` are not reached by any
claim and are omitted). -/
structure PostRepo (σ : Type) where
  create : Post → σ → Except String CreateMeta × σ
  getByID : Nat → σ → Except String Post × σ
  getBySlug : String → σ → Except String Post × σ
  update : Post → σ → Except String Unit × σ
  delete : Nat → σ → Except String Unit × σ
  getAll : PostFilter → Int → Int → σ → Except String (List Post) × σ
  getTotalCount : PostFilter → σ → Except String Int × σ
  incrementViewCount : Nat → σ → Except String Unit × σ

/-- The slice of `user.Repository` exercised by the embedded use cases. -/
structure UserRepo (σ : Type) where
  create : User → σ → Except String CreateMeta × σ
  getByID : Nat → σ → Except String User × σ
  getByEmail : String → σ → Except String User × σ

/-! ## Post use case (`internal/usecase/post_usecase.go`) -/

/-- `canModifyPost` (lines 329-337): admin may modify any post, otherwise
only the author may. -/
def canModifyPost (p : Post) (userID : Nat) (userRole : String) : Bool :=
  if userRole = "admin" then true else p.authorId == userID

/-- `mapToPostResponse` (lines 339-376).  A failed or empty author lookup
is downgraded to the placeholder name "Unknown"; `summary`/`featuredImg`
are coerced from null to the empty string.  The Go function's `error`
result is always `nil`, so the model returns the response directly. -/
def mapToPostResponse {σ : Type} (urepo : UserRepo σ) (p : Post) (s : σ) :
    PostResponse × σ :=
  let lookup := urepo.getByID p.authorId s
  let authorName := match lookup.1 with
    | .ok author => author.name
    | .error _ => "Unknown"
  ({ id := p.id, title := p.title, content := p.content,
     summary := p.summary.getD "", slug := p.slug, status := p.status,
     categoryId := p.categoryId, authorId := p.authorId,
     authorName := authorName, featuredImg := p.featuredImg.getD "",
     viewCount := p.viewCount, isPublic := p.isPublic,
     publishedAt := p.publishedAt, createdAt := p.createdAt,
     updatedAt := p.updatedAt }, lookup.2)

/-- Slug-collision resolution inside `UpdatePost` (lines 133-140): look the
candidate up, ignore a lookup error (`existingPost, _ :=`), and append
`"-<unix-seconds>"` when a different post owns the slug. -/
def resolveUpdateSlug {σ : Type} (repo : PostRepo σ) (p : Post)
    (newSlug : String) (now : Int) (s : σ) : String × σ :=
  let lookup := repo.getBySlug newSlug s
  match lookup.1 with
  | .ok existing =>
    if existing.id ≠ p.id then (newSlug ++ "-" ++ toString now, lookup.2)
    else (newSlug, lookup.2)
  | .error _ => (newSlug, lookup.2)

/-- `UpdatePost` lines 130-141: `if req.Title != nil` set the title and,
when the regenerated slug differs from the current one, re-resolve it. -/
def applyTitle {σ : Type} (repo : PostRepo σ) (req : UpdatePostRequest)
    (now : Int) (p : Post) (s : σ) : Post × σ :=
  match req.title with
  | none => (p, s)
  | some t =>
    let newSlug := generateSlug t
    if newSlug = p.slug then ({ p with title := t }, s)
    else
      let rs := resolveUpdateSlug repo p newSlug now s
      ({ p with title := t, slug := rs.1 }, rs.2)

/-- `UpdatePost` lines 143-145: `if req.Content != nil`. -/
def applyContent (req : UpdatePostRequest) (p : Post) : Post :=
  match req.content with
  | some c => { p with content := c }
  | none => p

/-- `UpdatePost` lines 147-149: `if req.Summary != nil` (pointer assigned). -/
def applySummary (req : UpdatePostRequest) (p : Post) : Post :=
  match req.summary with
  | some _ => { p with summary := req.summary }
  | none => p

/-- `UpdatePost` lines 151-153: `if req.CategoryID != nil`. -/
def applyCategoryId (req : UpdatePostRequest) (p : Post) : Post :=
  match req.categoryId with
  | some _ => { p with categoryId := req.categoryId }
  | none => p

/-- `UpdatePost` lines 155-157: `if req.FeaturedImg != nil`. -/
def applyFeaturedImg (req : UpdatePostRequest) (p : Post) : Post :=
  match req.featuredImg with
  | some _ => { p with featuredImg := req.featuredImg }
  | none => p

/-- `UpdatePost` lines 159-161: `if req.IsPublic != nil`. -/
def applyIsPublic (req : UpdatePostRequest) (p : Post) : Post :=
  match req.isPublic with
  | some b => { p with isPublic := b }
  | none => p

/-- `UpdatePost` lines 163-174: `if req.Status != nil` assign the status
and stamp `published_at` with the current time exactly when the old status
was not "published" and the new one is. -/
def applyStatus (req : UpdatePostRequest) (now : Int) (p : Post) : Post :=
  match req.status with
  | some st =>
    let p1 := { p with status := st }
    if p.status ≠ "published" ∧ st = "published" then
      { p1 with publishedAt := some now }
    else p1
  | none => p

/-- The whole field-application block of `UpdatePost` (lines 130-174),
between the permission check and the store write. -/
def applyUpdateFields {σ : Type} (repo : PostRepo σ) (p : Post)
    (req : UpdatePostRequest) (now : Int) (s : σ) : Post × σ :=
  let tr := applyTitle repo req now p s
  (applyStatus req now
    (applyIsPublic req
      (applyFeaturedImg req
        (applyCategoryId req
          (applySummary req
            (applyContent req tr.1))))), tr.2)

/-- Record construction in `CreatePost` (lines 52-80): defaults
status="draft" and is_public=true, stamps `published_at` when the resolved
status is "published".  Store-managed fields start at their zero values. -/
def buildNewPost (req : CreatePostRequest) (authorID : Nat) (slug : String)
    (now : Int) : Post :=
  let status := req.status.getD "draft"
  { id := 0, title := req.title, content := req.content,
    summary := req.summary, slug := slug, status := status,
    categoryId := req.categoryId, authorId := authorID,
    featuredImg := req.featuredImg, viewCount := 0,
    isPublic := req.isPublic.getD true,
    publishedAt := if status = "published" then some now else none,
    createdAt := 0, updatedAt := 0, deleted := false }

/-- Slug-collision resolution inside `CreatePost` (lines 46-50): the lookup
error is discarded (`existingPost, _ :=`); any found owner forces the
timestamp suffix. -/
def resolveCreateSlug (lookup : Except String Post) (slug : String)
    (now : Int) : String :=
  match lookup with
  | .ok _ => slug ++ "-" ++ toString now
  | .error _ => slug

/-- `CreatePost` (lines 42-87). -/
def createPost {σ : Type} (repo : PostRepo σ) (urepo : UserRepo σ)
    (req : CreatePostRequest) (authorID : Nat) (now : Int) (s : σ) :
    Except String PostResponse × σ :=
  let slug0 := generateSlug req.title
  let lookup := repo.getBySlug slug0 s
  let newPost := buildNewPost req authorID (resolveCreateSlug lookup.1 slug0 now) now
  match repo.create newPost lookup.2 with
  | (.error _, s2) => (.error "failed to create post", s2)
  | (.ok meta, s2) =>
    let stored := { newPost with
      id := meta.id, createdAt := meta.createdAt, updatedAt := meta.updatedAt }
    let r := mapToPostResponse urepo stored s2
    (.ok r.1, r.2)

/-- `GetPostByID` (lines 89-102): fetch errors propagate unchanged; when
`incrementView` is set, the store increment is issued with its error
discarded and the local copy's count is bumped. -/
def getPostByID {σ : Type} (repo : PostRepo σ) (urepo : UserRepo σ)
    (id : Nat) (incrementView : Bool) (s : σ) :
    Except String PostResponse × σ :=
  match repo.getByID id s with
  | (.error e, s1) => (.error e, s1)
  | (.ok p, s1) =>
    if incrementView then
      let inc := repo.incrementViewCount id s1
      let r := mapToPostResponse urepo { p with viewCount := p.viewCount + 1 } inc.2
      (.ok r.1, r.2)
    else
      let r := mapToPostResponse urepo p s1
      (.ok r.1, r.2)

/-- `GetPostBySlug` (lines 104-117): same shape as `GetPostByID`, the
increment keyed by the fetched post's id. -/
def getPostBySlug {σ : Type} (repo : PostRepo σ) (urepo : UserRepo σ)
    (slug : String) (incrementView : Bool) (s : σ) :
    Except String PostResponse × σ :=
  match repo.getBySlug slug s with
  | (.error e, s1) => (.error e, s1)
  | (.ok p, s1) =>
    if incrementView then
      let inc := repo.incrementViewCount p.id s1
      let r := mapToPostResponse urepo { p with viewCount := p.viewCount + 1 } inc.2
      (.ok r.1, r.2)
    else
      let r := mapToPostResponse urepo p s1
      (.ok r.1, r.2)

/-- `UpdatePost` (lines 119-181). -/
def updatePost {σ : Type} (repo : PostRepo σ) (urepo : UserRepo σ)
    (id : Nat) (req : UpdatePostRequest) (userID : Nat) (userRole : String)
    (now : Int) (s : σ) : Except String PostResponse × σ :=
  match repo.getByID id s with
  | (.error e, s1) => (.error e, s1)
  | (.ok p, s1) =>
    if canModifyPost p userID userRole then
      let pr := applyUpdateFields repo p req now s1
      match repo.update pr.1 pr.2 with
      | (.error _, s3) => (.error "failed to update post", s3)
      | (.ok _, s3) =>
        let r := mapToPostResponse urepo pr.1 s3
        (.ok r.1, r.2)
    else (.error "permission denied", s1)

/-- `DeletePost` (lines 183-199). -/
def deletePost {σ : Type} (repo : PostRepo σ) (id : Nat) (userID : Nat)
    (userRole : String) (s : σ) : Except String Unit × σ :=
  match repo.getByID id s with
  | (.error e, s1) => (.error e, s1)
  | (.ok p, s1) =>
    if canModifyPost p userID userRole then
      match repo.delete id s1 with
      | (.error _, s2) => (.error "failed to delete post", s2)
      | (.ok _, s2) => (.ok (), s2)
    else (.error "permission denied", s1)

/-- Page normalization in `GetAllPosts` (lines 202-204). -/
def normPage (page : Int) : Int := if page < 1 then 1 else page

/-- Limit normalization in `GetAllPosts` (lines 205-207). -/
def normLimit (limit : Int) : Int :=
  if limit < 1 || limit > 100 then 10 else limit

/-- Models `int(math.Ceil(float64 total / float64 limit))` (line 229).
Exact for `0 ≤ total < 2^53` and `1 ≤ limit`, i.e. everywhere the float
computation itself is exact. -/
def goCeilDiv (total limit : Int) : Int := (total + limit - 1) / limit

/-- The response-mapping loop of `GetAllPosts` (lines 221-228).  The Go
loop skips an item when `mapToPostResponse` fails, but that function never
returns an error, so a plain state-threading map is exact. -/
def mapPosts {σ : Type} (urepo : UserRepo σ) : List Post → σ →
    List PostResponse × σ
  | [], s => ([], s)
  | p :: ps, s =>
    let r := mapToPostResponse urepo p s
    let rest := mapPosts urepo ps r.2
    (r.1 :: rest.1, rest.2)

/-- `GetAllPosts` (lines 201-238). -/
def getAllPosts {σ : Type} (repo : PostRepo σ) (urepo : UserRepo σ)
    (filter : PostFilter) (page limit : Int) (s : σ) :
    Except String PostsListResponse × σ :=
  let page := normPage page
  let limit := normLimit limit
  let offset := (page - 1) * limit
  match repo.getAll filter limit offset s with
  | (.error _, s1) => (.error "failed to fetch posts", s1)
  | (.ok posts, s1) =>
    match repo.getTotalCount filter s1 with
    | (.error _, s2) => (.error "failed to count posts", s2)
    | (.ok total, s2) =>
      let rs := mapPosts urepo posts s2
      (.ok { posts := rs.1, total := total, page := page, limit := limit,
             totalPages := goCeilDiv total limit }, rs.2)

/-! ## Auth use case (`internal/usecase/auth_usecase.go`) -/

/-- Outcome of a Go call that may also abort with a runtime panic. -/
inductive GoOutcome (α : Type) where
  | ok (a : α)
  | err (msg : String)
  | panicked (msg : String)
deriving DecidableEq

/-- The `newUser` record built by `Register` (lines 46-56): the pointer
fields `Phone`, `Address`, `Lat`, `Lng` are all set to nil. -/
def mkRegisterUser (req : CreateUserRequest) (hashedPassword : String) : User :=
  { id := 0, email := req.email, password := hashedPassword,
    name := req.name, phone := none, address := none, lat := none,
    lng := none, role := "user", isActive := true, createdAt := 0,
    updatedAt := 0, deleted := false }

/-- `Register` (lines 31-77).  Password hashing is an external collaborator
whose result is passed in (`hashResult`).  The duplicate check treats a
failed email lookup as "no existing user" (`existingUser, _ :=`).  Building
the response dereferences the new user's `Phone`, `Address`, `Lat`, `Lng`
pointers; a nil pointer there is a runtime panic, not an error return. -/
def register {σ : Type} (urepo : UserRepo σ) (hashResult : Except String String)
    (req : CreateUserRequest) (s : σ) : GoOutcome UserResponse × σ :=
  let lookup := urepo.getByEmail req.email s
  match lookup.1 with
  | .ok _ => (.err "user with this email already exists", lookup.2)
  | .error _ =>
    match hashResult with
    | .error _ => (.err "failed to hash password", lookup.2)
    | .ok hashedPassword =>
      let newUser := mkRegisterUser req hashedPassword
      match urepo.create newUser lookup.2 with
      | (.error _, s2) => (.err "failed to create user", s2)
      | (.ok meta, s2) =>
        let u := { newUser with
          id := meta.id, createdAt := meta.createdAt,
          updatedAt := meta.updatedAt }
        match u.phone, u.address, u.lat, u.lng with
        | some ph, some ad, some la, some ln =>
          (.ok { id := u.id, email := u.email, name := u.name, phone := ph,
                 address := ad, lat := la, lng := ln, role := u.role,
                 isActive := u.isActive, createdAt := u.createdAt,
                 updatedAt := u.updatedAt }, s2)
        | _, _, _, _ =>
          (.panicked "invalid memory address or nil pointer dereference", s2)

/-! ## Concrete in-memory store

Instantiates the repository interfaces the way the GORM repository layer
(`internal/repository/post_repository.go`, `user_repository.go`) behaves
against MySQL: reads and scoped writes exclude soft-deleted rows, `Create`
assigns the next primary key, `Delete` sets the soft-delete marker, and
`IncrementViewCount` is a single column-level increment. -/

/-- Lower-case a whole string (models SQL `LOWER`, ASCII fragment). -/
def lowerString (s : String) : String := String.mk (s.data.map goToLower)

/-- Does `needle` occur at the start of `hay`? -/
def charsStartWith : List Char → List Char → Bool
  | [], _ => true
  | _ :: _, [] => false
  | a :: as, b :: bs => a == b && charsStartWith as bs

/-- Does `needle` occur anywhere inside `hay`?  (Models SQL `LIKE
"%needle%"`.) -/
def containsSub (needle : List Char) : List Char → Bool
  | [] => charsStartWith needle []
  | c :: cs => charsStartWith needle (c :: cs) || containsSub needle cs

/-- `applyFilters` (post_repository.go lines 129-155): conjunction over the
present filter fields; the search term matches case-insensitively against
title or content and is ignored when empty. -/
def matchesFilter (f : PostFilter) (p : Post) : Bool :=
  (match f.status with | some st => p.status == st | none => true) &&
  (match f.categoryId with | some c => p.categoryId == some c | none => true) &&
  (match f.authorId with | some a => p.authorId == a | none => true) &&
  (match f.isPublic with | some b => p.isPublic == b | none => true) &&
  (match f.search with
   | some t =>
     if t == "" then true
     else containsSub (lowerString t).data (lowerString p.title).data ||
          containsSub (lowerString t).data (lowerString p.content).data
   | none => true)

/-- Insert into a list kept in descending `createdAt` order (models the
`ORDER BY created_at DESC` of the repository queries). -/
def insertByCreatedDesc (p : Post) : List Post → List Post
  | [] => [p]
  | q :: qs =>
    if p.createdAt ≥ q.createdAt then p :: q :: qs
    else q :: insertByCreatedDesc p qs

/-- Sort by descending `createdAt`. -/
def sortByCreatedDesc : List Post → List Post
  | [] => []
  | p :: ps => insertByCreatedDesc p (sortByCreatedDesc ps)

/-- The in-memory database: post rows, user rows, next auto-increment id. -/
structure Store where
  posts : List Post
  users : List User
  nextId : Nat
deriving DecidableEq

/-- `First(&p, id)` under the soft-delete scope. -/
def Store.findById (s : Store) (id : Nat) : Option Post :=
  s.posts.find? (fun p => p.id == id && !p.deleted)

/-- `Where("slug = ?").First` under the soft-delete scope. -/
def Store.findBySlug (s : Store) (slug : String) : Option Post :=
  s.posts.find? (fun p => p.slug == slug && !p.deleted)

/-- Rows visible to a filtered query. -/
def Store.filtered (s : Store) (f : PostFilter) : List Post :=
  s.posts.filter (fun p => !p.deleted && matchesFilter f p)

/-- The column-level `UPDATE ... SET view_count = view_count + 1`. -/
def Store.bumpView (s : Store) (id : Nat) : Store :=
  { s with posts := s.posts.map (fun q =>
      if q.id == id && !q.deleted then { q with viewCount := q.viewCount + 1 }
      else q) }

/-- `post.Repository` over the in-memory store. -/
def storePostRepo : PostRepo Store where
  create := fun p s =>
    (.ok { id := s.nextId, createdAt := p.createdAt, updatedAt := p.updatedAt },
     { s with posts := s.posts ++ [{ p with id := s.nextId }],
              nextId := s.nextId + 1 })
  getByID := fun id s =>
    ((s.findById id).elim (.error "post not found") .ok, s)
  getBySlug := fun slug s =>
    ((s.findBySlug slug).elim (.error "post not found") .ok, s)
  update := fun p s =>
    (.ok (), { s with posts := s.posts.map (fun q =>
       if q.id == p.id && !q.deleted then p else q) })
  delete := fun id s =>
    (.ok (), { s with posts := s.posts.map (fun q =>
       if q.id == id then { q with deleted := true } else q) })
  getAll := fun f limit offset s =>
    (.ok (((sortByCreatedDesc (s.filtered f)).drop offset.toNat).take
       limit.toNat), s)
  getTotalCount := fun f s => (.ok ((s.filtered f).length : Int), s)
  incrementViewCount := fun id s => (.ok (), s.bumpView id)

/-- `user.Repository` over the in-memory store. -/
def storeUserRepo : UserRepo Store where
  create := fun u s =>
    (.ok { id := s.nextId, createdAt := u.createdAt, updatedAt := u.updatedAt },
     { s with users := s.users ++ [{ u with id := s.nextId }],
              nextId := s.nextId + 1 })
  getByID := fun id s =>
    ((s.users.find? (fun u => u.id == id && !u.deleted)).elim
      (.error "user not found") .ok, s)
  getByEmail := fun email s =>
    ((s.users.find? (fun u => u.email == email && !u.deleted)).elim
      (.error "user not found") .ok, s)

/-! ## Instrumented and faulty repositories (used by individual claims) -/

/-- A post repository that records the `(limit, offset)` arguments handed
to the listing query and answers every call benignly. -/
def spyPostRepo : PostRepo (List (Int × Int)) where
  create := fun _ s => (.error "unused", s)
  getByID := fun _ s => (.error "unused", s)
  getBySlug := fun _ s => (.error "unused", s)
  update := fun _ s => (.error "unused", s)
  delete := fun _ s => (.error "unused", s)
  getAll := fun _ limit offset s => (.ok [], s ++ [(limit, offset)])
  getTotalCount := fun _ s => (.ok 0, s)
  incrementViewCount := fun _ s => (.ok (), s)

/-- User repository matching `spyPostRepo`'s state type. -/
def spyUserRepo : UserRepo (List (Int × Int)) where
  create := fun _ s => (.error "unused", s)
  getByID := fun _ s => (.error "unused", s)
  getByEmail := fun _ s => (.error "unused", s)

/-- The in-memory post repository with an infrastructurally failing
`GetBySlug` (the database is unreachable for that query). -/
def faultySlugPostRepo : PostRepo Store :=
  { storePostRepo with getBySlug := fun _ s => (.error "database failure", s) }

/-- The in-memory post repository with a failing `IncrementViewCount`. -/
def faultyIncrementPostRepo : PostRepo Store :=
  { storePostRepo with
    incrementViewCount := fun _ s => (.error "database failure", s) }

/-- The in-memory post repository with a failing `Update`. -/
def faultyUpdatePostRepo : PostRepo Store :=
  { storePostRepo with update := fun _ s => (.error "database failure", s) }

/-- The in-memory post repository with a failing `Create`. -/
def faultyCreatePostRepo : PostRepo Store :=
  { storePostRepo with create := fun _ s => (.error "database failure", s) }

/-- The in-memory post repository with a failing `Delete`. -/
def faultyDeletePostRepo : PostRepo Store :=
  { storePostRepo with delete := fun _ s => (.error "database failure", s) }

/-- The in-memory user repository with a failing `GetByID` (the author
denormalization join is broken). -/
def faultyUserRepo : UserRepo Store :=
  { storeUserRepo with getByID := fun _ s => (.error "database failure", s) }

/-! ## Concrete sample data for witnesses and counterexamples -/

/-- A draft post owned by user 1. -/
def samplePost : Post :=
  { id := 1, title := "hello", content := "first", summary := none,
    slug := "hello", status := "draft", categoryId := none, authorId := 1,
    featuredImg := none, viewCount := 0, isPublic := true,
    publishedAt := none, createdAt := 0, updatedAt := 0, deleted := false }

/-- A store holding just `samplePost`. -/
def sampleStore : Store := { posts := [samplePost], users := [], nextId := 2 }

/-- A store holding nothing. -/
def emptyStore : Store := { posts := [], users := [], nextId := 1 }

/-- The all-absent partial update. -/
def emptyUpdate : UpdatePostRequest :=
  { title := none, content := none, summary := none, categoryId := none,
    featuredImg := none, isPublic := none, status := none }

/-- A partial update that only sets the status (this is also exactly the
request `PublishPost`/`UnpublishPost` build, lines 289-301). -/
def setStatus (st : String) : UpdatePostRequest :=
  { emptyUpdate with status := some st }

/-- A create request with only the required fields. -/
def sampleCreate : CreatePostRequest :=
  { title := "Hello World", content := "body", summary := none,
    categoryId := none, featuredImg := none, isPublic := none,
    status := none }

/-- The all-absent filter. -/
def emptyFilter : PostFilter :=
  { status := none, categoryId := none, authorId := none, isPublic := none,
    search := none }

/-- A registration request. -/
def sampleUserReq : CreateUserRequest :=
  { email := "a@example.com", password := "secret", name := "Alice" }

/-- A partial update that only retitles the post (forcing a slug
regeneration, since the new slug differs from `samplePost`'s). -/
def retitleUpdate : UpdatePostRequest :=
  { emptyUpdate with title := some "New Title" }

/-- A 110-character title whose slug, after collapsing and trimming, is 110
characters long, with a hyphen in position 100: truncation exposes a
trailing hyphen. -/
def longTitle : String :=
  String.mk (List.replicate 99 'a' ++ ' ' :: List.replicate 10 'b')

/-! ## Characterization lemmas for the update field-application block -/

lemma applyContent_eq (req : UpdatePostRequest) (p : Post) :
    applyContent req p = { p with content := req.content.getD p.content } := by
  cases h : req.content <;> simp [applyContent, h]

lemma applySummary_eq (req : UpdatePostRequest) (p : Post) :
    applySummary req p =
      { p with summary := if req.summary.isSome then req.summary else p.summary } := by
  cases h : req.summary <;> simp [applySummary, h]

lemma applyCategoryId_eq (req : UpdatePostRequest) (p : Post) :
    applyCategoryId req p =
      { p with categoryId := if req.categoryId.isSome then req.categoryId
                             else p.categoryId } := by
  cases h : req.categoryId <;> simp [applyCategoryId, h]

lemma applyFeaturedImg_eq (req : UpdatePostRequest) (p : Post) :
    applyFeaturedImg req p =
      { p with featuredImg := if req.featuredImg.isSome then req.featuredImg
                              else p.featuredImg } := by
  cases h : req.featuredImg <;> simp [applyFeaturedImg, h]

lemma applyIsPublic_eq (req : UpdatePostRequest) (p : Post) :
    applyIsPublic req p = { p with isPublic := req.isPublic.getD p.isPublic } := by
  cases h : req.isPublic <;> simp [applyIsPublic, h]

lemma applyStatus_eq (req : UpdatePostRequest) (now : Int) (p : Post) :
    applyStatus req now p =
      { p with status := req.status.getD p.status,
               publishedAt :=
                 if req.status = some "published" ∧ p.status ≠ "published"
                 then some now else p.publishedAt } := by
  cases h : req.status with
  | none => simp [applyStatus, h]
  | some st =>
    by_cases hp : p.status = "published" <;> by_cases hs : st = "published" <;>
      simp [applyStatus, h, hp, hs]

lemma applyTitle_fst_eq {σ : Type} (repo : PostRepo σ) (req : UpdatePostRequest)
    (now : Int) (p : Post) (s : σ) :
    (applyTitle repo req now p s).1 =
      match req.title with
      | none => p
      | some t =>
        { p with title := t,
                 slug := if generateSlug t = p.slug then p.slug
                         else (resolveUpdateSlug repo p (generateSlug t) now s).1 } := by
  cases h : req.title with
  | none => simp [applyTitle, h]
  | some t =>
    by_cases hs : generateSlug t = p.slug <;> simp [applyTitle, h, hs]

/-- What the whole block does to `publishedAt`: it is stamped with the
current instant exactly on a transition into "published" from a
non-published status, and untouched otherwise (in particular never
cleared). -/
lemma applyUpdateFields_publishedAt {σ : Type} (repo : PostRepo σ) (p : Post)
    (req : UpdatePostRequest) (now : Int) (s : σ) :
    ((applyUpdateFields repo p req now s).1).publishedAt =
      (if req.status = some "published" ∧ p.status ≠ "published"
       then some now else p.publishedAt) := by
  simp only [applyUpdateFields, applyContent_eq, applySummary_eq,
    applyCategoryId_eq, applyFeaturedImg_eq, applyIsPublic_eq, applyStatus_eq]
  cases h : req.title <;> simp [applyTitle_fst_eq, h]

/-! ## Slug generator lemmas -/

/-- Every character emitted by the regex replacement is a kept
`[a-z0-9]` character or the replacement hyphen. -/
lemma mem_collapseRuns (c : Char) : ∀ (b : Bool) (l : List Char),
    c ∈ collapseRuns b l → isSlugChar c = true ∨ c = '-' := by
  intro b l
  induction l generalizing b with
  | nil => intro h; simp [collapseRuns] at h
  | cons d ds ih =>
    intro h
    cases hd : isSlugChar d with
    | true =>
      rw [collapseRuns, hd] at h
      simp only [if_true] at h
      rcases List.mem_cons.mp h with rfl | h
      · exact Or.inl hd
      · exact ih false h
    | false =>
      rw [collapseRuns, hd] at h
      simp only [Bool.false_eq_true, if_false] at h
      cases b with
      | true => exact ih true (by simpa using h)
      | false =>
        simp only [Bool.false_eq_true, if_false] at h
        rcases List.mem_cons.mp h with rfl | h
        · exact Or.inr rfl
        · exact ih true h

/-- The first survivor of a `dropWhile` fails the predicate. -/
lemma head?_dropWhile_not (q : Char → Bool) : ∀ (l : List Char) (c : Char),
    (l.dropWhile q).head? = some c → q c = false := by
  intro l
  induction l with
  | nil => intro c h; simp [List.dropWhile] at h
  | cons d ds ih =>
    intro c h
    cases hd : q d with
    | true => rw [List.dropWhile, hd] at h; exact ih c h
    | false =>
      rw [List.dropWhile, hd] at h
      simp only [List.head?_cons, Option.some.injEq] at h
      exact h ▸ hd

/-- Appending an element the predicate rejects commutes with `dropWhile`. -/
lemma dropWhile_append_single (q : Char → Bool) (c : Char) (hc : q c = false) :
    ∀ (l : List Char), (l ++ [c]).dropWhile q = l.dropWhile q ++ [c] := by
  intro l
  induction l with
  | nil => simp [List.dropWhile, hc]
  | cons d ds ih =>
    cases hd : q d <;> simp [List.dropWhile, hd, ih]

/-- Trimming only removes characters. -/
lemma mem_trimHyphens {c : Char} {l : List Char} (h : c ∈ trimHyphens l) :
    c ∈ l := by
  unfold trimHyphens at h
  rw [List.mem_reverse] at h
  have h1 := List.dropWhile_subset _ h
  rw [List.mem_reverse] at h1
  exact List.dropWhile_subset _ h1

/-- A trimmed list never starts with a hyphen. -/
lemma trimHyphens_head (l : List Char) (c : Char)
    (h : (trimHyphens l).head? = some c) : (c == '-') = false := by
  unfold trimHyphens at h
  cases hA : l.dropWhile (· == '-') with
  | nil => rw [hA] at h; simp at h
  | cons a t =>
    have ha : (a == '-') = false :=
      head?_dropWhile_not _ l a (by rw [hA]; rfl)
    rw [hA, List.reverse_cons, dropWhile_append_single _ a ha,
      List.reverse_append] at h
    simp only [List.reverse_cons, List.reverse_nil, List.nil_append,
      List.cons_append, List.head?_cons, Option.some.injEq] at h
    exact h ▸ ha

/-- A trimmed list never ends with a hyphen. -/
lemma trimHyphens_getLast (l : List Char) (c : Char)
    (h : (trimHyphens l).getLast? = some c) : (c == '-') = false := by
  unfold trimHyphens at h
  rw [List.getLast?_reverse] at h
  exact head?_dropWhile_not _ _ c h

/-- Taking a positive number of elements keeps the head. -/
lemma head?_take_eq (l : List Char) (n : Nat) (hn : n ≠ 0) :
    (l.take n).head? = l.head? := by
  cases l <;> cases n <;> simp_all [List.take]

/-- `goToLower` fixes the kept slug characters. -/
lemma isSlugChar_goToLower_fix (c : Char) (h : isSlugChar c = true) :
    goToLower c = c := by
  unfold goToLower
  cases hAZ : ('A' ≤ c && c ≤ 'Z') with
  | false => simp [hAZ]
  | true =>
    exfalso
    simp only [Bool.and_eq_true, decide_eq_true_eq] at hAZ
    simp only [isSlugChar, Bool.or_eq_true, Bool.and_eq_true,
      decide_eq_true_eq] at h
    rcases h with ⟨h1, h2⟩ | ⟨h1, h2⟩
    · exact absurd (le_trans h1 hAZ.2) (by decide)
    · exact absurd (le_trans hAZ.1 h2) (by decide)

/-! ## C2 — slug shape -/

/-- C2 (claim as stated is FALSE): `generateSlug` can return a slug with a
trailing hyphen — the 100-character truncation runs after the trim and can
cut right after a hyphen. -/
theorem C2_counterexample :
    (generateSlug longTitle).data.getLast? = some '-' ∧
    (generateSlug longTitle).length = 100 := by
  decide

/-- C2 (amended): every generated slug consists only of `[a-z0-9-]`
characters (in particular it is entirely lower-case), never starts with a
hyphen, and has length at most 100; it also never ENDS with a hyphen
except when the 100-character truncation fired (i.e. whenever the trimmed
collapsed slug already fits in 100 characters). -/
theorem C2_slug_shape :
    ∀ (title : String),
      (∀ c ∈ (generateSlug title).data, isSlugChar c = true ∨ c = '-') ∧
      (∀ c ∈ (generateSlug title).data, goToLower c = c) ∧
      (generateSlug title).data.head? ≠ some '-' ∧
      (generateSlug title).length ≤ 100 ∧
      ((trimHyphens (collapseRuns false (title.data.map goToLower))).length ≤ 100 →
        (generateSlug title).data.getLast? ≠ some '-') := by
  intro title
  have hout : (generateSlug title).data =
      if (trimHyphens (collapseRuns false (title.data.map goToLower))).length > 100
      then (trimHyphens (collapseRuns false (title.data.map goToLower))).take 100
      else trimHyphens (collapseRuns false (title.data.map goToLower)) := rfl
  have hmem : ∀ c ∈ (generateSlug title).data, isSlugChar c = true ∨ c = '-' := by
    intro c hc
    rw [hout] at hc
    have hcT : c ∈ trimHyphens (collapseRuns false (title.data.map goToLower)) := by
      by_cases hlen :
          (trimHyphens (collapseRuns false (title.data.map goToLower))).length > 100
      · rw [if_pos hlen] at hc; exact List.take_subset _ _ hc
      · rw [if_neg hlen] at hc; exact hc
    exact mem_collapseRuns c false _ (mem_trimHyphens hcT)
  refine ⟨hmem, ?_, ?_, ?_, ?_⟩
  · intro c hc
    rcases hmem c hc with h | rfl
    · exact isSlugChar_goToLower_fix c h
    · rfl
  · intro h
    rw [hout] at h
    have h2 : (trimHyphens (collapseRuns false (title.data.map goToLower))).head?
        = some '-' := by
      by_cases hlen :
          (trimHyphens (collapseRuns false (title.data.map goToLower))).length > 100
      · rw [if_pos hlen, head?_take_eq _ 100 (by decide)] at h; exact h
      · rw [if_neg hlen] at h; exact h
    have hh := trimHyphens_head _ _ h2
    simp at hh
  · show ((generateSlug title).data).length ≤ 100
    rw [hout]
    by_cases hlen :
        (trimHyphens (collapseRuns false (title.data.map goToLower))).length > 100
    · rw [if_pos hlen]; simp [List.length_take]
    · rw [if_neg hlen]; omega
  · intro hlen h
    rw [hout, if_neg (by omega)] at h
    have hh := trimHyphens_getLast _ _ h
    simp at hh

/-- Witness for C2 at a concrete title: the slug of "Hello, World!" is not
truncated, so it carries no trailing hyphen, and its first character is a
kept slug character. -/
theorem C2_witness :
    (generateSlug "Hello, World!").data.getLast? ≠ some '-' ∧
    (isSlugChar 'h' = true ∨ 'h' = '-') := by
  refine ⟨(C2_slug_shape "Hello, World!").2.2.2.2 (by decide),
    (C2_slug_shape "Hello, World!").1 'h' (by decide)⟩

/-! ## Pagination arithmetic lemmas -/

lemma normPage_idem (page : Int) : normPage (normPage page) = normPage page := by
  unfold normPage
  split_ifs <;> omega

lemma normLimit_idem (limit : Int) :
    normLimit (normLimit limit) = normLimit limit := by
  unfold normLimit
  split_ifs <;> simp_all

lemma normLimit_pos (limit : Int) : 1 ≤ normLimit limit := by
  unfold normLimit
  split_ifs with h <;> simp_all

/-- `goCeilDiv total limit` is the ceiling of `total / limit`, characterized
multiplicatively: it is the least multiple threshold covering `total`. -/
lemma goCeilDiv_spec (total limit : Int) (_htot : 0 ≤ total) (hlim : 1 ≤ limit) :
    total ≤ goCeilDiv total limit * limit ∧
    goCeilDiv total limit * limit < total + limit := by
  have hpos : (0 : Int) < limit := by omega
  have hA : goCeilDiv total limit * limit ≤ total + limit - 1 :=
    (Int.le_ediv_iff_mul_le hpos).mp le_rfl
  have hB := Int.lt_ediv_add_one_mul_self (total + limit - 1) hpos
  rw [add_one_mul] at hB
  constructor
  · have h1 : total - 1 < goCeilDiv total limit * limit := by
      unfold goCeilDiv
      linarith
    linarith [Int.lt_iff_add_one_le.mp h1]
  · linarith

/-- Zero rows means zero pages. -/
lemma goCeilDiv_zero (limit : Int) (hlim : 1 ≤ limit) : goCeilDiv 0 limit = 0 := by
  unfold goCeilDiv
  rw [zero_add]
  exact Int.ediv_eq_zero_of_lt (by omega) (by omega)

/-! ## C3 — error channels -/

/-- C3 (claim as stated is FALSE): the slug-collision lookup in `CreatePost`
DOES suppress a store error — with `GetBySlug` failing infrastructurally,
the create still succeeds (and silently uses the unsuffixed slug). -/
theorem C3_counterexample :
    (faultySlugPostRepo.getBySlug (generateSlug sampleCreate.title) emptyStore).1
      = .error "database failure" ∧
    (createPost faultySlugPostRepo storeUserRepo sampleCreate 1 5 emptyStore).1
      = .ok { id := 1, title := "Hello World", content := "body", summary := "",
              slug := "hello-world", status := "draft", categoryId := none,
              authorId := 1, authorName := "Unknown", featuredImg := "",
              viewCount := 0, isPublic := true, publishedAt := none,
              createdAt := 0, updatedAt := 0 } := by
  exact ⟨rfl, rfl⟩

/-- Inside `UpdatePost`, when a retitle forces a slug regeneration and the
collision lookup fails, the error is discarded (`existingPost, _ :=`,
line 135) and the unsuffixed slug is used. -/
lemma applyUpdateFields_slug_lookup_error {σ : Type} (repo : PostRepo σ)
    (p : Post) (req : UpdatePostRequest) (now : Int) (s : σ) (t : String)
    (e : String) (ht : req.title = some t) (hne : generateSlug t ≠ p.slug)
    (hlook : (repo.getBySlug (generateSlug t) s).1 = .error e) :
    (applyUpdateFields repo p req now s).1.slug = generateSlug t := by
  simp only [applyUpdateFields, applyContent_eq, applySummary_eq,
    applyCategoryId_eq, applyFeaturedImg_eq, applyIsPublic_eq, applyStatus_eq,
    applyTitle_fst_eq, ht]
  rw [if_neg hne]
  simp [resolveUpdateSlug, hlook]

/-- C3 (amended): the primary fetch and write store calls propagate their
failures to the caller (fetches pass the error through unchanged; Create,
Update and Delete write failures surface as generic errors), and the
author lookup during response assembly is downgraded to the author name
"Unknown"; but, contrary to the original claim, the slug-collision lookup
in BOTH Create and Update and the view-count increment in BOTH GetByID and
GetBySlug swallow store errors: a failed slug lookup is treated as "no
collision" and the operation proceeds with the unsuffixed slug, and a
failed increment still yields a successful read whose view count is
locally bumped. -/
theorem C3_error_channels :
    (∀ (σ : Type) (repo : PostRepo σ) (urepo : UserRepo σ) (id : Nat)
       (iv : Bool) (s : σ) (e : String) (s1 : σ),
       repo.getByID id s = (.error e, s1) →
       getPostByID repo urepo id iv s = (.error e, s1)) ∧
    (∀ (σ : Type) (repo : PostRepo σ) (urepo : UserRepo σ) (slug : String)
       (iv : Bool) (s : σ) (e : String) (s1 : σ),
       repo.getBySlug slug s = (.error e, s1) →
       getPostBySlug repo urepo slug iv s = (.error e, s1)) ∧
    (∀ (σ : Type) (repo : PostRepo σ) (urepo : UserRepo σ) (id : Nat)
       (req : UpdatePostRequest) (uid : Nat) (role : String) (now : Int)
       (s : σ) (p : Post) (s1 : σ) (e : String),
       repo.getByID id s = (.ok p, s1) →
       canModifyPost p uid role = true →
       (repo.update (applyUpdateFields repo p req now s1).1
          (applyUpdateFields repo p req now s1).2).1 = .error e →
       (updatePost repo urepo id req uid role now s).1
         = .error "failed to update post") ∧
    (∀ (σ : Type) (repo : PostRepo σ) (urepo : UserRepo σ)
       (req : CreatePostRequest) (aid : Nat) (now : Int) (s : σ) (e : String),
       (repo.create
          (buildNewPost req aid
            (resolveCreateSlug (repo.getBySlug (generateSlug req.title) s).1
              (generateSlug req.title) now) now)
          (repo.getBySlug (generateSlug req.title) s).2).1 = .error e →
       (createPost repo urepo req aid now s).1 = .error "failed to create post") ∧
    (∀ (σ : Type) (repo : PostRepo σ) (id : Nat) (uid : Nat) (role : String)
       (s : σ) (p : Post) (s1 : σ) (e : String) (s2 : σ),
       repo.getByID id s = (.ok p, s1) →
       canModifyPost p uid role = true →
       repo.delete id s1 = (.error e, s2) →
       deletePost repo id uid role s = (.error "failed to delete post", s2)) ∧
    (∀ (σ : Type) (urepo : UserRepo σ) (p : Post) (s : σ) (e : String) (s1 : σ),
       urepo.getByID p.authorId s = (.error e, s1) →
       (mapToPostResponse urepo p s).1.authorName = "Unknown") ∧
    (∀ (σ : Type) (repo : PostRepo σ) (urepo : UserRepo σ)
       (req : CreatePostRequest) (aid : Nat) (now : Int) (s : σ) (e : String)
       (s1 : σ) (meta : CreateMeta),
       repo.getBySlug (generateSlug req.title) s = (.error e, s1) →
       (repo.create (buildNewPost req aid (generateSlug req.title) now) s1).1
         = .ok meta →
       ∃ (r : PostResponse) (s2 : σ),
         createPost repo urepo req aid now s = (.ok r, s2) ∧
         r.slug = generateSlug req.title) ∧
    (∀ (σ : Type) (repo : PostRepo σ) (urepo : UserRepo σ) (id : Nat)
       (req : UpdatePostRequest) (uid : Nat) (role : String) (now : Int)
       (s : σ) (p : Post) (s1 : σ) (t : String) (e : String) (u : Unit),
       repo.getByID id s = (.ok p, s1) →
       canModifyPost p uid role = true →
       req.title = some t →
       generateSlug t ≠ p.slug →
       (repo.getBySlug (generateSlug t) s1).1 = .error e →
       (repo.update (applyUpdateFields repo p req now s1).1
          (applyUpdateFields repo p req now s1).2).1 = .ok u →
       ∃ (r : PostResponse) (s3 : σ),
         updatePost repo urepo id req uid role now s = (.ok r, s3) ∧
         r.slug = generateSlug t) ∧
    (∀ (σ : Type) (repo : PostRepo σ) (urepo : UserRepo σ) (id : Nat) (s : σ)
       (p : Post) (s1 : σ) (e : String) (s2 : σ),
       repo.getByID id s = (.ok p, s1) →
       repo.incrementViewCount id s1 = (.error e, s2) →
       ∃ (r : PostResponse) (s3 : σ),
         getPostByID repo urepo id true s = (.ok r, s3) ∧
         r.viewCount = p.viewCount + 1) ∧
    (∀ (σ : Type) (repo : PostRepo σ) (urepo : UserRepo σ) (slug : String)
       (s : σ) (p : Post) (s1 : σ) (e : String) (s2 : σ),
       repo.getBySlug slug s = (.ok p, s1) →
       repo.incrementViewCount p.id s1 = (.error e, s2) →
       ∃ (r : PostResponse) (s3 : σ),
         getPostBySlug repo urepo slug true s = (.ok r, s3) ∧
         r.viewCount = p.viewCount + 1) := by
  refine ⟨?_, ?_, ?_, ?_, ?_, ?_, ?_, ?_, ?_, ?_⟩
  · intro σ repo urepo id iv s e s1 h
    simp [getPostByID, h]
  · intro σ repo urepo slug iv s e s1 h
    simp [getPostBySlug, h]
  · intro σ repo urepo id req uid role now s p s1 e h1 h2 h3
    simp only [updatePost, h1, h2, if_true]
    split
    · rfl
    · rename_i u s3 heq
      rw [heq] at h3
      simp at h3
  · intro σ repo urepo req aid now s e h
    simp only [createPost]
    split
    · rfl
    · rename_i meta s2 heq
      rw [heq] at h
      simp at h
  · intro σ repo id uid role s p s1 e s2 h1 h2 h3
    simp [deletePost, h1, h2, h3]
  · intro σ urepo p s e s1 h
    simp [mapToPostResponse, h]
  · intro σ repo urepo req aid now s e s1 meta h1 h2
    simp only [createPost, h1]
    rcases hres : repo.create
        (buildNewPost req aid
          (resolveCreateSlug (Except.error e) (generateSlug req.title) now) now)
        s1 with ⟨res, s2⟩
    rw [show resolveCreateSlug (Except.error e) (generateSlug req.title) now
        = generateSlug req.title from rfl] at hres
    rw [hres] at h2
    simp only [resolveCreateSlug, hres]
    cases res with
    | error e2 => simp at h2
    | ok meta2 =>
      refine ⟨_, _, rfl, ?_⟩
      simp [mapToPostResponse, buildNewPost]
  · intro σ repo urepo id req uid role now s p s1 t e u h1 h2 ht hne hlook hupd
    simp only [updatePost, h1, h2, if_true]
    split
    · rename_i e2 s3 heq
      rw [heq] at hupd
      simp at hupd
    · rename_i u2 s3 heq
      refine ⟨_, _, rfl, ?_⟩
      simp only [mapToPostResponse]
      exact applyUpdateFields_slug_lookup_error repo p req now s1 t e ht hne hlook
  · intro σ repo urepo id s p s1 e s2 h1 h2
    simp only [getPostByID, h1, if_true]
    refine ⟨_, _, rfl, ?_⟩
    simp [mapToPostResponse]
  · intro σ repo urepo slug s p s1 e s2 h1 h2
    simp only [getPostBySlug, h1, if_true]
    refine ⟨_, _, rfl, ?_⟩
    simp [mapToPostResponse]

/-- Witness for C3 across all ten channels, on concrete stores with the
corresponding fault injected. -/
theorem C3_witness :
    getPostByID storePostRepo storeUserRepo 1 true emptyStore
      = (.error "post not found", emptyStore) ∧
    getPostBySlug storePostRepo storeUserRepo "nope" true emptyStore
      = (.error "post not found", emptyStore) ∧
    (updatePost faultyUpdatePostRepo storeUserRepo 1 emptyUpdate 1 "user" 3
        sampleStore).1 = .error "failed to update post" ∧
    (createPost faultyCreatePostRepo storeUserRepo sampleCreate 1 5
        emptyStore).1 = .error "failed to create post" ∧
    deletePost faultyDeletePostRepo 1 1 "user" sampleStore
      = (.error "failed to delete post", sampleStore) ∧
    (mapToPostResponse faultyUserRepo samplePost sampleStore).1.authorName
      = "Unknown" ∧
    (∃ (r : PostResponse) (s2 : Store),
       createPost faultySlugPostRepo storeUserRepo sampleCreate 1 5 emptyStore
         = (.ok r, s2) ∧ r.slug = generateSlug sampleCreate.title) ∧
    (∃ (r : PostResponse) (s3 : Store),
       updatePost faultySlugPostRepo storeUserRepo 1 retitleUpdate 1 "user" 3
         sampleStore = (.ok r, s3) ∧ r.slug = generateSlug "New Title") ∧
    (∃ (r : PostResponse) (s3 : Store),
       getPostByID faultyIncrementPostRepo storeUserRepo 1 true sampleStore
         = (.ok r, s3) ∧ r.viewCount = samplePost.viewCount + 1) ∧
    (∃ (r : PostResponse) (s3 : Store),
       getPostBySlug faultyIncrementPostRepo storeUserRepo "hello" true
         sampleStore = (.ok r, s3) ∧ r.viewCount = samplePost.viewCount + 1) := by
  refine ⟨C3_error_channels.1 Store storePostRepo storeUserRepo 1 true
      emptyStore "post not found" emptyStore rfl,
    C3_error_channels.2.1 Store storePostRepo storeUserRepo "nope" true
      emptyStore "post not found" emptyStore rfl,
    C3_error_channels.2.2.1 Store faultyUpdatePostRepo storeUserRepo 1
      emptyUpdate 1 "user" 3 sampleStore samplePost sampleStore
      "database failure" rfl (by decide) rfl,
    C3_error_channels.2.2.2.1 Store faultyCreatePostRepo storeUserRepo
      sampleCreate 1 5 emptyStore "database failure" rfl,
    C3_error_channels.2.2.2.2.1 Store faultyDeletePostRepo 1 1 "user"
      sampleStore samplePost sampleStore "database failure" sampleStore rfl
      (by decide) rfl,
    C3_error_channels.2.2.2.2.2.1 Store faultyUserRepo samplePost sampleStore
      "database failure" sampleStore rfl,
    C3_error_channels.2.2.2.2.2.2.1 Store faultySlugPostRepo storeUserRepo
      sampleCreate 1 5 emptyStore "database failure" emptyStore
      { id := 1, createdAt := 0, updatedAt := 0 } rfl rfl,
    C3_error_channels.2.2.2.2.2.2.2.1 Store faultySlugPostRepo storeUserRepo
      1 retitleUpdate 1 "user" 3 sampleStore samplePost sampleStore
      "New Title" "database failure" () rfl (by decide) rfl (by decide) rfl
      rfl,
    C3_error_channels.2.2.2.2.2.2.2.2.1 Store faultyIncrementPostRepo
      storeUserRepo 1 sampleStore samplePost sampleStore "database failure"
      sampleStore rfl rfl,
    C3_error_channels.2.2.2.2.2.2.2.2.2 Store faultyIncrementPostRepo
      storeUserRepo "hello" sampleStore samplePost sampleStore
      "database failure" sampleStore rfl rfl⟩

/-! ## C1 — publish timestamp -/

/-- C1 (claim as stated is FALSE): `published_at` is not set "exactly
once".  Publishing at t=5, unpublishing at t=7, and re-publishing at t=9
leaves `published_at = 9`: the later non-published-to-published transition
overwrote the original stamp. -/
theorem C1_counterexample :
    ((updatePost storePostRepo storeUserRepo 1 (setStatus "published") 1
        "user" 5 sampleStore).2.findById 1).map Post.publishedAt
      = some (some 5) ∧
    ((updatePost storePostRepo storeUserRepo 1 (setStatus "draft") 1 "user" 7
        (updatePost storePostRepo storeUserRepo 1 (setStatus "published") 1
          "user" 5 sampleStore).2).2.findById 1).map Post.publishedAt
      = some (some 5) ∧
    ((updatePost storePostRepo storeUserRepo 1 (setStatus "published") 1
        "user" 9
        (updatePost storePostRepo storeUserRepo 1 (setStatus "draft") 1
          "user" 7
          (updatePost storePostRepo storeUserRepo 1 (setStatus "published") 1
            "user" 5 sampleStore).2).2).2.findById 1).map Post.publishedAt
      = some (some 9) := by
  decide

/-- C1 (amended): `published_at` is stamped with the current instant at
EVERY transition into "published" from a non-published status — at
creation and at update alike — and is left untouched (in particular never
cleared) by every operation that does not make such a transition. -/
theorem C1_publish_stamp :
    (∀ (σ : Type) (repo : PostRepo σ) (p : Post) (req : UpdatePostRequest)
       (now : Int) (s : σ),
       ((applyUpdateFields repo p req now s).1).publishedAt =
         (if req.status = some "published" ∧ p.status ≠ "published"
          then some now else p.publishedAt)) ∧
    (∀ (req : CreatePostRequest) (authorID : Nat) (slug : String) (now : Int),
       (buildNewPost req authorID slug now).publishedAt =
         (if req.status.getD "draft" = "published" then some now else none)) := by
  refine ⟨fun σ repo p req now s => applyUpdateFields_publishedAt repo p req now s, ?_⟩
  intro req authorID slug now
  simp [buildNewPost]

/-! ## C7 — republish idempotence -/

/-- C7: updating a post whose status is already "published" with status
"published" again leaves `published_at` unchanged. -/
theorem C7_republish_keeps_publishedAt :
    ∀ (σ : Type) (repo : PostRepo σ) (p : Post) (req : UpdatePostRequest)
      (now : Int) (s : σ),
      p.status = "published" → req.status = some "published" →
      ((applyUpdateFields repo p req now s).1).publishedAt = p.publishedAt := by
  intro σ repo p req now s hp hr
  rw [applyUpdateFields_publishedAt]
  simp [hp]

/-- Witness for C7 at a concrete published post. -/
theorem C7_witness :
    ((applyUpdateFields storePostRepo
        { samplePost with status := "published", publishedAt := some 5 }
        (setStatus "published") 9 sampleStore).1).publishedAt = some 5 :=
  C7_republish_keeps_publishedAt Store storePostRepo
    { samplePost with status := "published", publishedAt := some 5 }
    (setStatus "published") 9 sampleStore rfl rfl

/-! ## C6 — partial-update frame -/

/-- C6: the update block changes only the fields whose request fields are
present (plus slug, only via a present title, and `published_at`, only via
the publish rule); absent fields, and always `author_id`, `id`,
`view_count` and the store-managed fields, keep their prior values. -/
theorem C6_update_frame :
    ∀ (σ : Type) (repo : PostRepo σ) (p : Post) (req : UpdatePostRequest)
      (now : Int) (s : σ),
      ((applyUpdateFields repo p req now s).1.authorId = p.authorId ∧
       (applyUpdateFields repo p req now s).1.id = p.id ∧
       (applyUpdateFields repo p req now s).1.viewCount = p.viewCount ∧
       (applyUpdateFields repo p req now s).1.createdAt = p.createdAt ∧
       (applyUpdateFields repo p req now s).1.updatedAt = p.updatedAt ∧
       (applyUpdateFields repo p req now s).1.deleted = p.deleted) ∧
      (req.title = none →
        (applyUpdateFields repo p req now s).1.title = p.title ∧
        (applyUpdateFields repo p req now s).1.slug = p.slug) ∧
      (req.content = none →
        (applyUpdateFields repo p req now s).1.content = p.content) ∧
      (req.summary = none →
        (applyUpdateFields repo p req now s).1.summary = p.summary) ∧
      (req.categoryId = none →
        (applyUpdateFields repo p req now s).1.categoryId = p.categoryId) ∧
      (req.featuredImg = none →
        (applyUpdateFields repo p req now s).1.featuredImg = p.featuredImg) ∧
      (req.isPublic = none →
        (applyUpdateFields repo p req now s).1.isPublic = p.isPublic) ∧
      (req.status = none →
        (applyUpdateFields repo p req now s).1.status = p.status ∧
        (applyUpdateFields repo p req now s).1.publishedAt = p.publishedAt) := by
  intro σ repo p req now s
  simp only [applyUpdateFields, applyContent_eq, applySummary_eq,
    applyCategoryId_eq, applyFeaturedImg_eq, applyIsPublic_eq, applyStatus_eq,
    applyTitle_fst_eq]
  cases ht : req.title <;> cases hst : req.status <;> simp_all

/-- Witness for C6: the all-absent update leaves every projected field of
the sample post as it was. -/
theorem C6_witness :
    (applyUpdateFields storePostRepo samplePost emptyUpdate 3 sampleStore).1.authorId
      = samplePost.authorId ∧
    (applyUpdateFields storePostRepo samplePost emptyUpdate 3 sampleStore).1.title
      = samplePost.title ∧
    (applyUpdateFields storePostRepo samplePost emptyUpdate 3 sampleStore).1.status
      = samplePost.status := by
  refine ⟨(C6_update_frame Store storePostRepo samplePost emptyUpdate 3 sampleStore).1.1,
    ((C6_update_frame Store storePostRepo samplePost emptyUpdate 3 sampleStore).2.1 rfl).1,
    ((C6_update_frame Store storePostRepo samplePost emptyUpdate 3 sampleStore).2.2.2.2.2.2.2 rfl).1⟩

/-! ## C4 — permission rule -/

/-- C4: the permission check allows exactly admins and the author, and a
mutating operation attempted by anyone else fails with "permission denied"
and leaves the store untouched. -/
theorem C4_permission :
    (∀ (p : Post) (uid : Nat) (role : String),
       canModifyPost p uid role = true ↔ (role = "admin" ∨ p.authorId = uid)) ∧
    (∀ (s : Store) (id : Nat) (req : UpdatePostRequest) (uid : Nat)
       (role : String) (now : Int) (p : Post),
       role ≠ "admin" → s.findById id = some p → p.authorId ≠ uid →
       updatePost storePostRepo storeUserRepo id req uid role now s
         = (.error "permission denied", s)) ∧
    (∀ (s : Store) (id : Nat) (uid : Nat) (role : String) (p : Post),
       role ≠ "admin" → s.findById id = some p → p.authorId ≠ uid →
       deletePost storePostRepo id uid role s
         = (.error "permission denied", s)) := by
  refine ⟨?_, ?_, ?_⟩
  · intro p uid role
    unfold canModifyPost
    by_cases hr : role = "admin" <;> simp [hr]
  · intro s id req uid role now p hr hfind hauth
    simp [updatePost, storePostRepo, hfind, canModifyPost, hr, hauth]
  · intro s id uid role p hr hfind hauth
    simp [deletePost, storePostRepo, hfind, canModifyPost, hr, hauth]

/-- Witness for C4: an admin passes the check on someone else's post, and
a stranger's update and delete are both refused on the sample store. -/
theorem C4_witness :
    canModifyPost samplePost 2 "admin" = true ∧
    updatePost storePostRepo storeUserRepo 1 emptyUpdate 2 "user" 3 sampleStore
      = (.error "permission denied", sampleStore) ∧
    deletePost storePostRepo 1 2 "user" sampleStore
      = (.error "permission denied", sampleStore) := by
  refine ⟨(C4_permission.1 samplePost 2 "admin").2 (Or.inl rfl),
    C4_permission.2.1 sampleStore 1 emptyUpdate 2 "user" 3 samplePost
      (by decide) rfl (by decide),
    C4_permission.2.2 sampleStore 1 2 "user" samplePost (by decide) rfl
      (by decide)⟩

/-! ## C5 — pagination normalization and page count -/

/-- C5: listing normalizes `page` to 1 when `page < 1` and `limit` to 10
when it is outside `[1, 100]` (so `list(0,0)` behaves as `list(1,10)`),
queries the store with `offset = (page-1)*limit` for the normalized
values, echoes the normalized values in the envelope, and returns
`total_pages = ceil(total/limit)` — characterized multiplicatively, with 0
pages for 0 rows. -/
theorem C5_pagination :
    (∀ (σ : Type) (repo : PostRepo σ) (urepo : UserRepo σ) (f : PostFilter)
       (page limit : Int) (s : σ),
       getAllPosts repo urepo f page limit s
         = getAllPosts repo urepo f (normPage page) (normLimit limit) s) ∧
    (∀ (σ : Type) (repo : PostRepo σ) (urepo : UserRepo σ) (f : PostFilter)
       (page limit : Int) (s : σ) (r : PostsListResponse) (s2 : σ),
       getAllPosts repo urepo f page limit s = (.ok r, s2) →
       r.page = normPage page ∧ r.limit = normLimit limit ∧
       (0 ≤ r.total →
         r.total ≤ r.totalPages * r.limit ∧
         r.totalPages * r.limit < r.total + r.limit) ∧
       (r.total = 0 → r.totalPages = 0)) ∧
    (∀ (f : PostFilter) (page limit : Int),
       (getAllPosts spyPostRepo spyUserRepo f page limit []).2
         = [(normLimit limit, (normPage page - 1) * normLimit limit)]) := by
  refine ⟨?_, ?_, ?_⟩
  · intro σ repo urepo f page limit s
    simp only [getAllPosts, normPage_idem, normLimit_idem]
  · intro σ repo urepo f page limit s r s2 h
    simp only [getAllPosts] at h
    split at h
    · simp at h
    · split at h
      · simp at h
      · rename_i total s2' heq2
        injection h with h1 h2
        injection h1 with h1
        subst h1
        refine ⟨rfl, rfl, ?_, ?_⟩
        · intro htot
          exact goCeilDiv_spec total (normLimit limit) htot (normLimit_pos limit)
        · intro h0
          have h0' : total = 0 := h0
          subst h0'
          exact goCeilDiv_zero (normLimit limit) (normLimit_pos limit)
  · intro f page limit
    simp [getAllPosts, spyPostRepo, spyUserRepo, mapPosts]

/-- Witness for C5: `list(0,0)` coincides with `list(1,10)` on the sample
store, the envelope echoes the normalized page and limit, and the spy
repository records the single store query at `limit = 10`, `offset = 0`. -/
theorem C5_witness :
    (getAllPosts storePostRepo storeUserRepo emptyFilter 0 0 sampleStore
      = getAllPosts storePostRepo storeUserRepo emptyFilter 1 10 sampleStore) ∧
    ((1 : Int) = normPage 0 ∧ (10 : Int) = normLimit 0) ∧
    (getAllPosts spyPostRepo spyUserRepo emptyFilter 0 0 []).2 = [(10, 0)] := by
  refine ⟨C5_pagination.1 Store storePostRepo storeUserRepo emptyFilter 0 0
      sampleStore, ?_, C5_pagination.2.2 emptyFilter 0 0⟩
  have h := C5_pagination.2.1 (List (Int × Int)) spyPostRepo spyUserRepo
    emptyFilter 0 0 []
    { posts := [], total := 0, page := 1, limit := 10, totalPages := 0 }
    [(10, 0)] rfl
  exact ⟨h.1, h.2.1⟩

/-! ## C8 — duplicate titles get distinct slugs -/

/-- What `CreatePost` does on the concrete store when the candidate slug is
still free: the post is persisted under the generated slug. -/
lemma createPost_store_free (req : CreatePostRequest) (aid : Nat) (now : Int)
    (s : Store) (hfree : s.findBySlug (generateSlug req.title) = none) :
    createPost storePostRepo storeUserRepo req aid now s
      = (.ok (mapToPostResponse storeUserRepo
            { buildNewPost req aid (generateSlug req.title) now with
              id := s.nextId }
            { s with
              posts := s.posts ++
                [{ buildNewPost req aid (generateSlug req.title) now with
                   id := s.nextId }],
              nextId := s.nextId + 1 }).1,
         { s with
           posts := s.posts ++
             [{ buildNewPost req aid (generateSlug req.title) now with
                id := s.nextId }],
           nextId := s.nextId + 1 }) := by
  simp [createPost, storePostRepo, hfree, resolveCreateSlug, storeUserRepo,
    mapToPostResponse]

/-- What `CreatePost` does on the concrete store when the candidate slug is
already owned: the post is persisted under the suffixed slug. -/
lemma createPost_store_taken (req : CreatePostRequest) (aid : Nat) (now : Int)
    (s : Store) (q : Post)
    (htaken : s.findBySlug (generateSlug req.title) = some q) :
    createPost storePostRepo storeUserRepo req aid now s
      = (.ok (mapToPostResponse storeUserRepo
            { buildNewPost req aid
                (generateSlug req.title ++ "-" ++ toString now) now with
              id := s.nextId }
            { s with
              posts := s.posts ++
                [{ buildNewPost req aid
                     (generateSlug req.title ++ "-" ++ toString now) now with
                   id := s.nextId }],
              nextId := s.nextId + 1 }).1,
         { s with
           posts := s.posts ++
             [{ buildNewPost req aid
                  (generateSlug req.title ++ "-" ++ toString now) now with
                id := s.nextId }],
           nextId := s.nextId + 1 }) := by
  simp [createPost, storePostRepo, htaken, resolveCreateSlug, storeUserRepo,
    mapToPostResponse]

/-- C8: starting from any store in which the generated slug for the title
is still free, two sequential creates with that same title persist the
first post under the generated slug and the second under the
timestamp-suffixed slug — and the two slugs are distinct. -/
theorem C8_duplicate_title_slugs :
    ∀ (s : Store) (req : CreatePostRequest) (aid1 aid2 : Nat) (now1 now2 : Int),
      s.findBySlug (generateSlug req.title) = none →
      ∃ (r1 : PostResponse) (s1 : Store) (r2 : PostResponse) (s2 : Store),
        createPost storePostRepo storeUserRepo req aid1 now1 s = (.ok r1, s1) ∧
        createPost storePostRepo storeUserRepo req aid2 now2 s1 = (.ok r2, s2) ∧
        r1.slug = generateSlug req.title ∧
        r2.slug = generateSlug req.title ++ "-" ++ toString now2 ∧
        r1.slug ≠ r2.slug := by
  intro s req aid1 aid2 now1 now2 hfree
  have h1 := createPost_store_free req aid1 now1 s hfree
  set stored1 : Post :=
    { buildNewPost req aid1 (generateSlug req.title) now1 with
      id := s.nextId } with hstored1
  set s1 : Store :=
    { s with posts := s.posts ++ [stored1], nextId := s.nextId + 1 } with hs1
  have htaken : s1.findBySlug (generateSlug req.title) = some stored1 := by
    unfold Store.findBySlug at hfree ⊢
    rw [hs1]
    simp only [List.find?_append, hfree, Option.none_or]
    simp [hstored1, buildNewPost]
  have h2 := createPost_store_taken req aid2 now2 s1 stored1 htaken
  have hr1 : (mapToPostResponse storeUserRepo stored1 s1).1.slug
      = generateSlug req.title := by
    simp [mapToPostResponse, hstored1, buildNewPost]
  set stored2 : Post :=
    { buildNewPost req aid2 (generateSlug req.title ++ "-" ++ toString now2)
        now2 with id := s1.nextId } with hstored2
  set s2 : Store :=
    { s1 with posts := s1.posts ++ [stored2], nextId := s1.nextId + 1 } with hs2
  have hr2 : (mapToPostResponse storeUserRepo stored2 s2).1.slug
      = generateSlug req.title ++ "-" ++ toString now2 := by
    simp [mapToPostResponse, hstored2, buildNewPost]
  refine ⟨_, _, _, _, h1, h2, hr1, hr2, ?_⟩
  rw [hr1, hr2]
  intro heq
  have hl := congrArg String.length heq
  rw [String.length_append, String.length_append] at hl
  have hone : ("-" : String).length = 1 := rfl
  omega

/-- Witness for C8: two creates of "Hello World" on the empty store yield
slugs "hello-world" and "hello-world-7". -/
theorem C8_witness :
    ∃ (r1 : PostResponse) (s1 : Store) (r2 : PostResponse) (s2 : Store),
      createPost storePostRepo storeUserRepo sampleCreate 1 5 emptyStore
        = (.ok r1, s1) ∧
      createPost storePostRepo storeUserRepo sampleCreate 2 7 s1
        = (.ok r2, s2) ∧
      r1.slug = generateSlug sampleCreate.title ∧
      r2.slug = generateSlug sampleCreate.title ++ "-" ++ toString (7 : Int) ∧
      r1.slug ≠ r2.slug :=
  C8_duplicate_title_slugs emptyStore sampleCreate 1 2 5 7 rfl

/-! ## C9 — view-count increment -/

/-- C9: on the concrete store, fetching an existing non-deleted post with
`increment_view = true` issues exactly one store increment (the store
advances by one `bumpView`) and answers with the fetched count plus one;
with `increment_view = false` the store is left untouched and the stored
count is answered.  Both key and slug lookups behave alike. -/
theorem C9_view_count :
    (∀ (s : Store) (id : Nat) (p : Post),
       s.findById id = some p →
       getPostByID storePostRepo storeUserRepo id true s
         = (.ok (mapToPostResponse storeUserRepo
             { p with viewCount := p.viewCount + 1 } (s.bumpView id)).1,
            s.bumpView id) ∧
       (mapToPostResponse storeUserRepo { p with viewCount := p.viewCount + 1 }
          (s.bumpView id)).1.viewCount = p.viewCount + 1 ∧
       getPostByID storePostRepo storeUserRepo id false s
         = (.ok (mapToPostResponse storeUserRepo p s).1, s) ∧
       (mapToPostResponse storeUserRepo p s).1.viewCount = p.viewCount) ∧
    (∀ (s : Store) (slug : String) (p : Post),
       s.findBySlug slug = some p →
       getPostBySlug storePostRepo storeUserRepo slug true s
         = (.ok (mapToPostResponse storeUserRepo
             { p with viewCount := p.viewCount + 1 } (s.bumpView p.id)).1,
            s.bumpView p.id) ∧
       (mapToPostResponse storeUserRepo { p with viewCount := p.viewCount + 1 }
          (s.bumpView p.id)).1.viewCount = p.viewCount + 1 ∧
       getPostBySlug storePostRepo storeUserRepo slug false s
         = (.ok (mapToPostResponse storeUserRepo p s).1, s) ∧
       (mapToPostResponse storeUserRepo p s).1.viewCount = p.viewCount) := by
  constructor
  · intro s id p hfind
    refine ⟨?_, ?_, ?_, ?_⟩ <;>
      simp [getPostByID, storePostRepo, hfind, mapToPostResponse, storeUserRepo]
  · intro s slug p hfind
    refine ⟨?_, ?_, ?_, ?_⟩ <;>
      simp [getPostBySlug, storePostRepo, hfind, mapToPostResponse, storeUserRepo]

/-- Witness for C9 on the sample store. -/
theorem C9_witness :
    getPostByID storePostRepo storeUserRepo 1 true sampleStore
      = (.ok (mapToPostResponse storeUserRepo
          { samplePost with viewCount := samplePost.viewCount + 1 }
          (sampleStore.bumpView 1)).1,
         sampleStore.bumpView 1) ∧
    (mapToPostResponse storeUserRepo
       { samplePost with viewCount := samplePost.viewCount + 1 }
       (sampleStore.bumpView 1)).1.viewCount = samplePost.viewCount + 1 := by
  have h := C9_view_count.1 sampleStore 1 samplePost rfl
  exact ⟨h.1, h.2.1⟩

/-! ## C10 — Register dereferences the nil pointers it just wrote -/

/-- C10: every registration that passes the duplicate-email check (the
lookup yields no user), the hash step, and the store write ends in the
nil-pointer-dereference panic while building the response: `Register` has
just set `Phone`, `Address`, `Lat` and `Lng` to nil and then dereferences
them, so the success branch never returns normally. -/
theorem C10_register_nil_deref :
    ∀ (σ : Type) (urepo : UserRepo σ) (req : CreateUserRequest) (s : σ)
      (e : String) (hashed : String) (meta : CreateMeta),
      (urepo.getByEmail req.email s).1 = .error e →
      (urepo.create (mkRegisterUser req hashed)
         (urepo.getByEmail req.email s).2).1 = .ok meta →
      (register urepo (.ok hashed) req s).1
        = .panicked "invalid memory address or nil pointer dereference" := by
  intro σ urepo req s e hashed meta h1 h2
  simp only [register, h1]
  split
  · rename_i e2 s2 heq
    rw [heq] at h2
    simp at h2
  · rename_i meta2 s2 heq
    rw [heq] at h2
    simp [mkRegisterUser]

/-- Witness for C10: registering a fresh email on the empty store panics. -/
theorem C10_witness :
    (register storeUserRepo (.ok "hashedpw") sampleUserReq emptyStore).1
      = .panicked "invalid memory address or nil pointer dereference" :=
  C10_register_nil_deref Store storeUserRepo sampleUserReq emptyStore
    "user not found" "hashedpw" { id := 1, createdAt := 0, updatedAt := 0 }
    rfl rfl

end Moon
